import Mathlib

/-!
Verification development for the Prospecta_IA lead-prospecting frontend.

Strings are modelled as `List Char`.  JavaScript's
`String.prototype.replace` with a string pattern replaces only the first
occurrence; with a `/…/g` regex over a literal it replaces every
occurrence, scanning left to right and never rescanning the replacement
text.  Both are embedded below (`replaceFirst`, `replaceAll`); the
`replaceAll` scan is driven by a fuel argument equal to the length of the
scanned string so that the definition is structurally recursive and
kernel-reducible.
-/

/-- One left-to-right scan of JavaScript `s.replace(/pat/g, rep)` for a
literal pattern: at each position, if `pat` matches, emit `rep` and resume
after the matched span (the replacement text is not rescanned).  `fuel`
bounds the number of scan steps; callers pass `s.length`, which always
suffices because each step either drops one character or a nonempty
pattern. An empty pattern is treated as matching nowhere. -/
def replaceAllGo (pat rep : List Char) : Nat → List Char → List Char
  | _, [] => []
  | 0, s => s
  | fuel + 1, c :: rest =>
    if pat ≠ [] ∧ pat.isPrefixOf (c :: rest) then
      rep ++ replaceAllGo pat rep fuel ((c :: rest).drop pat.length)
    else
      c :: replaceAllGo pat rep fuel rest

/-- JavaScript `s.replace(/pat/g, rep)` for a literal pattern. -/
def replaceAll (pat rep s : List Char) : List Char :=
  replaceAllGo pat rep s.length s

/-- JavaScript `s.replace(pat, rep)` with a string pattern: only the first
occurrence is replaced. -/
def replaceFirst (pat rep : List Char) : List Char → List Char
  | [] => []
  | c :: rest =>
    if pat ≠ [] ∧ pat.isPrefixOf (c :: rest) then
      rep ++ (c :: rest).drop pat.length
    else
      c :: replaceFirst pat rep rest

/-- Number of (non-overlapping, leftmost-first) occurrences of `pat` found
by the same scan as `replaceAllGo`, with the same fuel discipline. -/
def countOccurGo (pat : List Char) : Nat → List Char → Nat
  | _, [] => 0
  | 0, _ => 0
  | fuel + 1, c :: rest =>
    if pat ≠ [] ∧ pat.isPrefixOf (c :: rest) then
      countOccurGo pat fuel ((c :: rest).drop pat.length) + 1
    else
      countOccurGo pat fuel rest

/-- Number of occurrences of `pat` in `s` as seen by the global-replace scan. -/
def countOccur (pat s : List Char) : Nat :=
  countOccurGo pat s.length s

/-- `pat` occurs somewhere in `s` (as a contiguous sublist). -/
def containsSub (pat s : List Char) : Bool :=
  (List.range (s.length + 1)).any fun i => pat.isPrefixOf (s.drop i)

/-- Lead shape consumed by `formatMessage` in
`frontend/src/components/ManualProspecting.tsx` (interface `Lead`): `name`
is declared as a required string and `notes`/`company` as optional, but the
renderer guards all three with a JavaScript falsy check (`lead.name || …`),
so each field is modelled as `Option (List Char)` where `none` is a missing
field and `some []` an empty string — both falsy. -/
structure MLead where
  name : Option (List Char)
  notes : Option (List Char)
  company : Option (List Char)

/-- JavaScript `v || d` for an optional string `v`: the default is taken
when the value is absent or the empty string (both falsy). -/
def falsyOr (v : Option (List Char)) (d : List Char) : List Char :=
  match v with
  | none => d
  | some s => if s = [] then d else s

/-- `formatMessage` from `frontend/src/components/ManualProspecting.tsx`
(lines 177–185): six chained global replacements with fallback values
`'Amigo'`, `'crescer o negocio'`, `''`. -/
def formatMessage (template : List Char) (lead : MLead) : List Char :=
  let t1 := replaceAll "[NAME]".toList (falsyOr lead.name "Amigo".toList) template
  let t2 := replaceAll "[NOTES]".toList (falsyOr lead.notes "crescer o negocio".toList) t1
  let t3 := replaceAll "[COMPANY]".toList (falsyOr lead.company []) t2
  let t4 := replaceAll "{name}".toList (falsyOr lead.name "Amigo".toList) t3
  let t5 := replaceAll "{notes}".toList (falsyOr lead.notes "crescer o negocio".toList) t4
  replaceAll "{company}".toList (falsyOr lead.company []) t5

/-- Lead shape consumed by `formatMessage` in the `ReactivationCampaign`
component (interface `ReactivationLead`): `name` and `notes` are required
strings, `company` is optional. -/
structure RLead where
  name : List Char
  notes : List Char
  company : Option (List Char)

/-- `formatMessage` from the `ReactivationCampaign` component (lines
121–129): six chained first-occurrence replacements, no fallback for
`name`/`notes`, `lead.company || ''` for the company. -/
def reactFormatMessage (template : List Char) (lead : RLead) : List Char :=
  let t1 := replaceFirst "[NAME]".toList lead.name template
  let t2 := replaceFirst "[NOTES]".toList lead.notes t1
  let t3 := replaceFirst "[COMPANY]".toList (falsyOr lead.company []) t2
  let t4 := replaceFirst "{name}".toList lead.name t3
  let t5 := replaceFirst "{notes}".toList lead.notes t4
  replaceFirst "{company}".toList (falsyOr lead.company []) t5

/-- The six placeholder literals recognised by both renderers, in the order
the replacement chain processes them. -/
def placeholders : List (List Char) :=
  ["[NAME]".toList, "[NOTES]".toList, "[COMPANY]".toList,
   "{name}".toList, "{notes}".toList, "{company}".toList]

/-!
Safety filter (claim C1).  The `previewCampaign` safety-filtering pipeline
runs in the backend, which is not part of the checked sources; only the
`SafetyReport` interfaces it fills are.  It is therefore modelled from the
spec below.
-/

/-- Modelled from the spec: the Normalizer (§4.1), whose implementation is
not among the checked sources.  "Phone normalization strips non-digits,
and if the result does not already carry the expected country prefix, the
prefix is prepended; if after normalization fewer than 10 significant
digits remain, normalization fails." -/
def normalizePhone (raw : List Char) : Option (List Char) :=
  let digits := raw.filter Char.isDigit
  if digits.length < 10 then none
  else if "55".toList.isPrefixOf digits then some digits
  else some ("55".toList ++ digits)

/-- A raw uploaded row, restricted to the fields the safety filter
inspects (spec §3, "Lead (raw)"). -/
structure RawLead where
  phone : List Char
  originalStatus : Option (List Char)

/-- The rejection bucket (or acceptance) assigned to one raw lead. -/
inductive Bucket
  | noPhone
  | duplicate
  | blocked
  | contacted
  | sendable
deriving DecidableEq

/-- Modelled from the spec: classification of a single lead by the
SafetyFilter (§4.2), whose implementation is not among the checked
sources.  Strict priority order: normalization failure → `no_phone`;
phone seen earlier in the batch → `duplicates_removed`; `original_status`
in the closed vocabulary → `skipped_fechado`; recently contacted →
`already_contacted`; otherwise sendable.  Returns the bucket and the
updated set of phones seen so far. -/
def classifyLead (closedStatus : Option (List Char) → Bool)
    (recentlyContacted : List Char → Bool)
    (seen : List (List Char)) (l : RawLead) : Bucket × List (List Char) :=
  match normalizePhone l.phone with
  | none => (Bucket.noPhone, seen)
  | some p =>
    if p ∈ seen then (Bucket.duplicate, seen)
    else if closedStatus l.originalStatus then (Bucket.blocked, p :: seen)
    else if recentlyContacted p then (Bucket.contacted, p :: seen)
    else (Bucket.sendable, p :: seen)

/-- The numeric part of the `SafetyReport` record (spec §3 and the
`SafetyReport` interfaces in `ManualProspecting.tsx` and the
`ReactivationCampaign` component). -/
structure SafetyReport where
  totalOriginal : Nat
  sendable : Nat
  alreadyContacted : Nat
  duplicatesRemoved : Nat
  blockedClosed : Nat
  noPhone : Nat
deriving DecidableEq

/-- Add one classified lead to a report. -/
def tallyBucket (r : SafetyReport) : Bucket → SafetyReport
  | Bucket.noPhone => { r with totalOriginal := r.totalOriginal + 1, noPhone := r.noPhone + 1 }
  | Bucket.duplicate => { r with totalOriginal := r.totalOriginal + 1, duplicatesRemoved := r.duplicatesRemoved + 1 }
  | Bucket.blocked => { r with totalOriginal := r.totalOriginal + 1, blockedClosed := r.blockedClosed + 1 }
  | Bucket.contacted => { r with totalOriginal := r.totalOriginal + 1, alreadyContacted := r.alreadyContacted + 1 }
  | Bucket.sendable => { r with totalOriginal := r.totalOriginal + 1, sendable := r.sendable + 1 }

/-- Modelled from the spec: the SafetyFilter loop over a raw batch
(§4.2), threading the set of already-seen phones and accumulating the
report. -/
def safetyFilterGo (closedStatus : Option (List Char) → Bool)
    (recentlyContacted : List Char → Bool)
    (seen : List (List Char)) (r : SafetyReport) : List RawLead → SafetyReport
  | [] => r
  | l :: rest =>
    let (b, seen') := classifyLead closedStatus recentlyContacted seen l
    safetyFilterGo closedStatus recentlyContacted seen' (tallyBucket r b) rest

/-- Modelled from the spec: the report produced by `previewCampaign` for a
raw batch (§4.2, §6). -/
def safetyFilter (closedStatus : Option (List Char) → Bool)
    (recentlyContacted : List Char → Bool) (batch : List RawLead) : SafetyReport :=
  safetyFilterGo closedStatus recentlyContacted [] ⟨0, 0, 0, 0, 0, 0⟩ batch

/-!
Delay inputs (claim C2).
-/

/-- The `onChange` handler of the delay input in the `ReactivationCampaign`
component (line 503): `setDelaySeconds(Math.max(30, Math.min(120,
parseInt(e.target.value) || 45)))`.  The argument is the result of
`parseInt` (`none` = `NaN`); `|| 45` replaces the falsy values `NaN` and
`0` by 45. -/
def reactivationDelayOnChange (parsed : Option Int) : Int :=
  max 30 (min 120 (match parsed with
    | none => 45
    | some n => if n = 0 then 45 else n))

/-- The `onChange` handler of the delay inputs in `ManualProspecting.tsx`
(lines 524 and 621): `setDelaySeconds(Number(e.target.value))` — the
entered number is stored with no clamping. -/
def manualDelayOnChange (entered : Int) : Int :=
  entered

/-!
Campaign preview estimates (claim C4).
-/

/-- The message count shown in the SPIN-mode preview stats of
`ManualProspecting.tsx` (line 430): `previewData.total_leads * 2`. -/
def spinPreviewMessages (totalLeads : Nat) : Nat :=
  totalLeads * 2

/-- The estimated minutes shown by both campaign components
(`ManualProspecting.tsx` lines 437/528/625 and the `ReactivationCampaign`
component line 514): `Math.ceil((total_leads * delaySeconds) / 60)`,
written as natural ceiling division. -/
def estimatedMinutes (totalLeads delaySeconds : Nat) : Nat :=
  (totalLeads * delaySeconds + 59) / 60

/-!
Campaign progress polling (claim C5).
-/

/-- What the poll loop does after reading one status. -/
inductive PollAction
  | stop
  | schedule (delayMs : Nat)
deriving DecidableEq

/-- The decision taken by the `poll` closure in `startCampaign`
(`AppContext`, lines 121–140): on `'completed'` it stops (and refreshes the
lead list), on `'failed'` it stops (and surfaces the error message), and on
every other status it schedules another poll via `setTimeout(poll, 1000)`. -/
def pollStep (status : String) : PollAction :=
  if status = "completed" then PollAction.stop
  else if status = "failed" then PollAction.stop
  else PollAction.schedule 1000

/-!
Kanban manual moves (claim C6).
-/

/-- Visibility of the "Marcar Reuniao" move action on a kanban `LeadCard`
(`frontend/src/app/kanban/page.tsx`, line 147):
`lead.status !== 'reuniao_agendada'`. -/
def showMeetingMove (status : String) : Bool :=
  status ≠ "reuniao_agendada"

/-- Visibility of the "Perdido" move action on a kanban `LeadCard`
(`frontend/src/app/kanban/page.tsx`, line 156):
`lead.status !== 'perdido' && lead.status !== 'curioso'`. -/
def showLostMove (status : String) : Bool :=
  status ≠ "perdido" && status ≠ "curioso"

/-!
Phone normalization in the pipeline page (claim C7).
-/

/-- The phone transformation inside `handleWhatsApp`
(`frontend/src/app/pipeline/page.tsx`, lines 53–56): strip every non-digit
and prepend `'55'` when the digits do not already start with it. -/
def waNormalizePhone (raw : List Char) : List Char :=
  let digits := raw.filter Char.isDigit
  if "55".toList.isPrefixOf digits then digits
  else "55".toList ++ digits

/-- `handleWhatsApp` (`frontend/src/app/pipeline/page.tsx`, lines 51–59):
when `lead.telefone` is truthy (present and nonempty) the wa.me link is
opened with the normalized phone; otherwise nothing happens.  Returns the
phone used in the opened link, or `none` when no link is opened. -/
def handleWhatsApp (telefone : Option (List Char)) : Option (List Char) :=
  match telefone with
  | none => none
  | some t => if t = [] then none else some (waNormalizePhone t)

/-!
The `reactivation_log` store (claim C8).
-/

/-- One row of `reactivation_log`, restricted to the columns the
uniqueness discussion needs.  `campaignId` is `Option` because the
fallback DDL declares `campaign_id` nullable. -/
structure LogRow where
  id : Nat
  phone : String
  campaignId : Option String
  status : String
deriving DecidableEq

/-- No two distinct positions of the list are related by `f`. -/
def noDupBy (f : LogRow → LogRow → Bool) : List LogRow → Bool
  | [] => true
  | r :: rest => rest.all (fun x => !(f r x)) && noDupBy f rest

/-- The constraints of `reactivation_log` as declared in
`database/migration_reactivation_log.sql` (lines 8–30): primary-key ids,
`phone` and `campaign_id` NOT NULL, and `UNIQUE(phone, campaign_id)`. -/
def migrationAdmits (rows : List LogRow) : Bool :=
  noDupBy (fun a b => a.id == b.id) rows &&
  noDupBy (fun a b => a.phone == b.phone && a.campaignId == b.campaignId) rows &&
  rows.all (fun r => r.campaignId.isSome)

/-- The constraints of the fallback `reactivation_log` DDL (the
`CREATE TABLE IF NOT EXISTS` block at lines 46–55 of the reactivation-leads
SQL file): only the `id` primary key — no uniqueness over
`(phone, campaign_id)` and a nullable `campaign_id`. -/
def part000Admits (rows : List LogRow) : Bool :=
  noDupBy (fun a b => a.id == b.id) rows

/-!
Helper lemmas about the replacement scan.
-/

theorem containsSub_head (pat : List Char) (c : Char) (rest : List Char)
    (h : containsSub pat (c :: rest) = false) : pat.isPrefixOf (c :: rest) = false := by
  by_contra hne
  have hp : pat.isPrefixOf (c :: rest) = true := by
    cases hx : pat.isPrefixOf (c :: rest) with
    | true => rfl
    | false => exact absurd hx hne
  have : containsSub pat (c :: rest) = true := by
    unfold containsSub
    rw [List.any_eq_true]
    exact ⟨0, List.mem_range.mpr (Nat.succ_pos _), by simpa using hp⟩
  rw [this] at h
  exact Bool.true_eq_false.mp h

theorem containsSub_tail (pat : List Char) (c : Char) (rest : List Char)
    (h : containsSub pat (c :: rest) = false) : containsSub pat rest = false := by
  cases hx : containsSub pat rest with
  | false => rfl
  | true =>
    exfalso
    unfold containsSub at hx
    rw [List.any_eq_true] at hx
    obtain ⟨i, hi, hpre⟩ := hx
    have hi' : i < rest.length + 1 := List.mem_range.mp hi
    have : containsSub pat (c :: rest) = true := by
      unfold containsSub
      rw [List.any_eq_true]
      refine ⟨i + 1, List.mem_range.mpr (by simp; omega), ?_⟩
      simpa [List.drop_succ_cons] using hpre
    rw [this] at h
    exact Bool.true_eq_false.mp h

theorem replaceAllGo_no_occur (pat rep : List Char) :
    ∀ (fuel : Nat) (s : List Char), containsSub pat s = false →
      replaceAllGo pat rep fuel s = s := by
  intro fuel
  induction fuel with
  | zero =>
    intro s _
    cases s <;> simp [replaceAllGo]
  | succ n ih =>
    intro s h
    cases s with
    | nil => simp [replaceAllGo]
    | cons c rest =>
      have hpre := containsSub_head pat c rest h
      have hcond : ¬(pat ≠ [] ∧ pat.isPrefixOf (c :: rest)) := by
        intro ⟨_, hp⟩
        rw [hpre] at hp
        exact Bool.false_ne_true hp
      rw [replaceAllGo, if_neg hcond]
      rw [ih rest (containsSub_tail pat c rest h)]

theorem replaceAll_no_occur (pat rep s : List Char) (h : containsSub pat s = false) :
    replaceAll pat rep s = s :=
  replaceAllGo_no_occur pat rep s.length s h

theorem countOccurGo_zero_replaceAllGo (pat rep : List Char) :
    ∀ (fuel : Nat) (s : List Char), countOccurGo pat fuel s = 0 →
      replaceAllGo pat rep fuel s = s := by
  intro fuel
  induction fuel with
  | zero =>
    intro s _
    cases s <;> simp [replaceAllGo]
  | succ n ih =>
    intro s h
    cases s with
    | nil => simp [replaceAllGo]
    | cons c rest =>
      by_cases hcond : pat ≠ [] ∧ pat.isPrefixOf (c :: rest)
      · rw [countOccurGo, if_pos hcond] at h
        omega
      · rw [countOccurGo, if_neg hcond] at h
        rw [replaceAllGo, if_neg hcond, ih rest h]

theorem replaceAllGo_le_one_eq_replaceFirst (pat rep : List Char) :
    ∀ (fuel : Nat) (s : List Char), s.length ≤ fuel →
      countOccurGo pat fuel s ≤ 1 →
      replaceAllGo pat rep fuel s = replaceFirst pat rep s := by
  intro fuel
  induction fuel with
  | zero =>
    intro s hlen _
    cases s with
    | nil => simp [replaceAllGo, replaceFirst]
    | cons c rest => simp at hlen
  | succ n ih =>
    intro s hlen hcount
    cases s with
    | nil => simp [replaceAllGo, replaceFirst]
    | cons c rest =>
      by_cases hcond : pat ≠ [] ∧ pat.isPrefixOf (c :: rest)
      · rw [countOccurGo, if_pos hcond] at hcount
        have hz : countOccurGo pat n ((c :: rest).drop pat.length) = 0 := by omega
        rw [replaceAllGo, if_pos hcond, replaceFirst, if_pos hcond,
          countOccurGo_zero_replaceAllGo pat rep n _ hz]
      · rw [countOccurGo, if_neg hcond] at hcount
        have hlen' : rest.length ≤ n := by
          simp at hlen
          omega
        rw [replaceAllGo, if_neg hcond, replaceFirst, if_neg hcond,
          ih rest hlen' hcount]

theorem replaceAll_le_one_eq_replaceFirst (pat rep s : List Char)
    (h : countOccur pat s ≤ 1) : replaceAll pat rep s = replaceFirst pat rep s :=
  replaceAllGo_le_one_eq_replaceFirst pat rep s.length s (Nat.le_refl _) h

/-!
Helper lemmas for the safety-filter partition invariant.
-/

theorem tallyBucket_preserves (r : SafetyReport) (b : Bucket)
    (h : r.totalOriginal =
      r.sendable + r.alreadyContacted + r.duplicatesRemoved + r.blockedClosed + r.noPhone) :
    (tallyBucket r b).totalOriginal =
      (tallyBucket r b).sendable + (tallyBucket r b).alreadyContacted +
      (tallyBucket r b).duplicatesRemoved + (tallyBucket r b).blockedClosed +
      (tallyBucket r b).noPhone := by
  cases b <;> simp [tallyBucket] <;> omega

theorem safetyFilterGo_preserves (closedStatus : Option (List Char) → Bool)
    (recentlyContacted : List Char → Bool) :
    ∀ (batch : List RawLead) (seen : List (List Char)) (r : SafetyReport),
      r.totalOriginal =
        r.sendable + r.alreadyContacted + r.duplicatesRemoved + r.blockedClosed + r.noPhone →
      (safetyFilterGo closedStatus recentlyContacted seen r batch).totalOriginal =
        (safetyFilterGo closedStatus recentlyContacted seen r batch).sendable +
        (safetyFilterGo closedStatus recentlyContacted seen r batch).alreadyContacted +
        (safetyFilterGo closedStatus recentlyContacted seen r batch).duplicatesRemoved +
        (safetyFilterGo closedStatus recentlyContacted seen r batch).blockedClosed +
        (safetyFilterGo closedStatus recentlyContacted seen r batch).noPhone := by
  intro batch
  induction batch with
  | nil => intro seen r h; simpa [safetyFilterGo] using h
  | cons l rest ih =>
    intro seen r h
    rw [safetyFilterGo]
    exact ih _ _ (tallyBucket_preserves r _ h)

/-- Claim C1: for every raw batch run through the safety filter, the report
satisfies `totalOriginal = sendable + alreadyContacted + duplicatesRemoved
+ blockedClosed + noPhone`: every input lead lands in exactly one bucket.
The filter itself runs in the backend and is modelled from the spec
(`safetyFilter`); the statement holds for every closed-status vocabulary
and every prior-contact lookup. -/
theorem c1_partition_completeness (closedStatus : Option (List Char) → Bool)
    (recentlyContacted : List Char → Bool) (batch : List RawLead) :
    (safetyFilter closedStatus recentlyContacted batch).totalOriginal =
      (safetyFilter closedStatus recentlyContacted batch).sendable +
      (safetyFilter closedStatus recentlyContacted batch).alreadyContacted +
      (safetyFilter closedStatus recentlyContacted batch).duplicatesRemoved +
      (safetyFilter closedStatus recentlyContacted batch).blockedClosed +
      (safetyFilter closedStatus recentlyContacted batch).noPhone :=
  safetyFilterGo_preserves closedStatus recentlyContacted batch [] ⟨0, 0, 0, 0, 0, 0⟩ rfl

/-- Claim C2, counterexample: the `ManualProspecting` delay input stores
the entered number unclamped, so entering 500 makes the campaign launch
with `delaySeconds = 500`, outside the configured bound 120. -/
theorem c2_counterexample :
    manualDelayOnChange 500 = 500 ∧ ¬(manualDelayOnChange 500 ≤ 120) := by
  constructor
  · rfl
  · decide

/-- Claim C2, amended: only the `ReactivationCampaign` delay input clamps
the entered value: whatever `parseInt` yields (including `NaN`, zero, or
out-of-range numbers), the stored `delaySeconds` lies within `[30, 120]`.
The `ManualProspecting` input performs no clamping. -/
theorem c2_reactivation_delay_clamped (parsed : Option Int) :
    30 ≤ reactivationDelayOnChange parsed ∧ reactivationDelayOnChange parsed ≤ 120 :=
  ⟨le_max_left _ _, max_le (by norm_num) (min_le_left _ _)⟩

/-- Claim C3: the `ManualProspecting` renderer is total (it is a function
into strings: every template and lead yields a rendered string) and applies
the documented fallbacks: a missing `name` renders exactly as the generic
greeting noun `'Amigo'` would, a missing `notes` as the generic benefit
phrase `'crescer o negocio'`, and a missing `company` as the empty string;
in particular a lone placeholder renders to the corresponding fallback. -/
theorem c3_render_fallbacks :
    (∀ (t : List Char) (nts cmp : Option (List Char)),
      formatMessage t ⟨none, nts, cmp⟩ = formatMessage t ⟨some "Amigo".toList, nts, cmp⟩) ∧
    (∀ (t : List Char) (nm cmp : Option (List Char)),
      formatMessage t ⟨nm, none, cmp⟩ =
        formatMessage t ⟨nm, some "crescer o negocio".toList, cmp⟩) ∧
    (∀ (t : List Char) (nm nts : Option (List Char)),
      formatMessage t ⟨nm, nts, none⟩ = formatMessage t ⟨nm, nts, some []⟩) ∧
    formatMessage "[NAME]".toList ⟨none, none, none⟩ = "Amigo".toList ∧
    formatMessage "[NOTES]".toList ⟨none, none, none⟩ = "crescer o negocio".toList ∧
    formatMessage "[COMPANY]".toList ⟨none, none, none⟩ = [] := by
  refine ⟨?_, ?_, ?_, by decide, by decide, by decide⟩ <;>
    intros <;> simp [formatMessage, falsyOr]

/-- Claim C4, counterexample: with one lead and a 60-second delay in
SPIN mode the preview displays 1 estimated minute, not the
`ceil(1 * 60 * 2 / 60) = 2` minutes the claim asserts. -/
theorem c4_counterexample :
    estimatedMinutes 1 60 = 1 ∧ (1 * 60 * 2 + 59) / 60 = 2 ∧
      estimatedMinutes 1 60 ≠ (1 * 60 * 2 + 59) / 60 := by
  decide

/-- Claim C4, amended: the estimated duration displayed by the campaign
previews is `ceil(leadsTotal * delaySeconds / 60)` minutes — the delay is
counted once per lead, with no `messagesPerLead` factor — even though the
SPIN preview simultaneously shows `leadsTotal * 2` messages.  The minute
figure is characterised as the least number of whole minutes covering
`leadsTotal * delaySeconds` seconds. -/
theorem c4_estimated_minutes (totalLeads delaySeconds : Nat) :
    totalLeads * delaySeconds ≤ 60 * estimatedMinutes totalLeads delaySeconds ∧
    60 * estimatedMinutes totalLeads delaySeconds < totalLeads * delaySeconds + 60 ∧
    spinPreviewMessages totalLeads = 2 * totalLeads := by
  unfold estimatedMinutes spinPreviewMessages
  have h1 := Nat.div_add_mod (totalLeads * delaySeconds + 59) 60
  have h2 := Nat.mod_lt (totalLeads * delaySeconds + 59) (show 0 < 60 by norm_num)
  omega

/-- Claim C5, counterexample: a campaign observed in status `'cancelled'`
does not stop the poll loop — the loop schedules another poll in 1000 ms,
because only `'completed'` and `'failed'` are handled as terminal. -/
theorem c5_counterexample :
    pollStep "cancelled" = PollAction.schedule 1000 ∧
      pollStep "cancelled" ≠ PollAction.stop := by
  decide

/-- Claim C5, amended: the `startCampaign` poll loop stops exactly on the
statuses `'completed'` and `'failed'`; on every other status (including
`'cancelled'`) it schedules the next poll 1000 ms later. -/
theorem c5_poll_termination (status : String) :
    (pollStep status = PollAction.stop ↔ status = "completed" ∨ status = "failed") ∧
    (pollStep status = PollAction.stop ∨ pollStep status = PollAction.schedule 1000) := by
  unfold pollStep
  split
  · simp_all
  · split <;> simp_all

/-- Claim C6, counterexample: for a lead in stage `'curioso'` the manual
move to `'perdido'` is not offered, although `'curioso'` is not
`'perdido'` — the claim that the move is available from every other stage
fails. -/
theorem c6_counterexample :
    showLostMove "curioso" = false ∧ "curioso" ≠ "perdido" := by
  decide

/-- Claim C6, amended: the kanban card offers the manual move to
`'reuniao_agendada'` from every stage except `'reuniao_agendada'` itself
(in particular from `'perdido'`), and the manual move to `'perdido'` from
every stage except `'perdido'` and `'curioso'`. -/
theorem c6_move_availability (status : String) :
    (showMeetingMove status = true ↔ status ≠ "reuniao_agendada") ∧
    (showLostMove status = true ↔ status ≠ "perdido" ∧ status ≠ "curioso") ∧
    showMeetingMove "perdido" = true := by
  refine ⟨?_, ?_, by decide⟩ <;> simp [showMeetingMove, showLostMove]

/-- Claim C7, counterexample: a phone whose normalization keeps only three
digits is not rejected by `handleWhatsApp` — the wa.me link is opened with
`'55123'`, which has fewer than 10 digits, instead of the lead being
dropped. -/
theorem c7_counterexample :
    handleWhatsApp (some "123".toList) = some "55123".toList ∧
      ("55123".toList.length < 10) := by
  decide

/-- Claim C7, amended: the in-repository phone normalization
(`handleWhatsApp` in the pipeline page) strips every non-digit character
and prepends the country prefix `'55'` when absent — the result is all
digits and carries the prefix — but it applies no minimum-length check:
no input is ever rejected for being short. -/
theorem c7_normalization (raw : List Char) :
    (waNormalizePhone raw).all Char.isDigit = true ∧
      "55".toList.isPrefixOf (waNormalizePhone raw) = true := by
  unfold waNormalizePhone
  by_cases h : "55".toList.isPrefixOf (raw.filter Char.isDigit) = true
  · rw [if_pos h]
    refine ⟨?_, h⟩
    rw [List.all_eq_true]
    intro c hc
    exact (List.mem_filter.mp hc).2
  · rw [if_neg h]
    constructor
    · rw [List.all_eq_true]
      intro c hc
      rcases List.mem_append.mp hc with h5 | hd
      · have : c = '5' := by
          simpa using h5
        simp [this]
      · exact (List.mem_filter.mp hd).2
    · rw [List.isPrefixOf_iff_prefix]
      exact List.prefix_append _ _

/-!
Helper lemma for the uniqueness constraint (claim C8).
-/

theorem noDupBy_filter_le_one (f : LogRow → LogRow → Bool) (g : LogRow → Bool)
    (hcomp : ∀ a b, g a = true → g b = true → f a b = true) :
    ∀ rows : List LogRow, noDupBy f rows = true → (rows.filter g).length ≤ 1 := by
  intro rows
  induction rows with
  | nil => intro _; simp
  | cons r rest ih =>
    intro h
    rw [noDupBy, Bool.and_eq_true] at h
    obtain ⟨hall, hrest⟩ := h
    by_cases hg : g r = true
    · have hempty : rest.filter g = [] := by
        rw [List.filter_eq_nil_iff]
        intro x hx hgx
        have hfr := List.all_eq_true.mp hall x hx
        rw [hcomp r x hg hgx] at hfr
        simp at hfr
      simp [List.filter_cons, hg, hempty]
    · simpa [List.filter_cons, hg] using ih hrest

/-- Claim C8, counterexample: the fallback DDL for `reactivation_log`
(the `CREATE TABLE IF NOT EXISTS` block in the reactivation-leads SQL
file) declares no uniqueness over `(phone, campaign_id)`; a table holding
two rows for the same phone in the same campaign satisfies every
constraint it declares, so the storage layer does not by itself guarantee
the at-most-once invariant. -/
theorem c8_counterexample :
    part000Admits
      [⟨1, "5511999887766", some "react_1", "sent"⟩,
       ⟨2, "5511999887766", some "react_1", "sent"⟩] = true ∧
    (([⟨1, "5511999887766", some "react_1", "sent"⟩,
       ⟨2, "5511999887766", some "react_1", "sent"⟩] : List LogRow).filter
        (fun r => r.phone == "5511999887766" && r.campaignId == some "react_1")).length = 2 := by
  decide

/-- Claim C8, amended: the schema declared in
`database/migration_reactivation_log.sql` does enforce the invariant —
every table state it admits holds at most one row per
`(phone, campaign_id)` pair — but the fallback DDL creates the same table
without that constraint, so the guarantee holds only when the migration's
DDL defined the table. -/
theorem c8_migration_log_unique (rows : List LogRow)
    (h : migrationAdmits rows = true) (p c : String) :
    (rows.filter (fun r => r.phone == p && r.campaignId == some c)).length ≤ 1 := by
  have hpair : noDupBy (fun a b => a.phone == b.phone && a.campaignId == b.campaignId)
      rows = true := by
    unfold migrationAdmits at h
    rw [Bool.and_eq_true, Bool.and_eq_true] at h
    exact h.1.2
  refine noDupBy_filter_le_one _ _ ?_ rows hpair
  intro a b ha hb
  simp only [Bool.and_eq_true, beq_iff_eq] at ha hb ⊢
  exact ⟨ha.1.trans hb.1.symm, ha.2.trans hb.2.symm⟩

theorem c8_migration_log_unique_witness :
    migrationAdmits [⟨1, "5511999887766", some "react_1", "queued"⟩] = true ∧
    (([⟨1, "5511999887766", some "react_1", "queued"⟩] : List LogRow).filter
      (fun r => r.phone == "5511999887766" && r.campaignId == some "react_1")).length ≤ 1 :=
  ⟨by decide, c8_migration_log_unique _ (by decide) "5511999887766" "react_1"⟩

/-- Claim C9, counterexample: rendering is not idempotent in general.
With the template `'[NOTES]'` and a lead whose `notes` field is the text
`'[NAME]'`, one render yields `'[NAME]'`, and rendering that output again
with the same lead yields `'Bob'`. -/
theorem c9_counterexample :
    formatMessage
        (formatMessage "[NOTES]".toList ⟨some "Bob".toList, some "[NAME]".toList, none⟩)
        ⟨some "Bob".toList, some "[NAME]".toList, none⟩ ≠
      formatMessage "[NOTES]".toList ⟨some "Bob".toList, some "[NAME]".toList, none⟩ := by
  decide

/-- Claim C9, amended: `formatMessage` is pure — in this embedding it is a
function of the template and lead alone, so equal inputs give equal
outputs and nothing is mutated — and re-rendering its own output with the
same lead leaves the text unchanged whenever that output contains no
occurrence of any of the six placeholders.  (When a substituted field
value itself contains a placeholder token, as in the counterexample,
re-rendering can change the text.) -/
theorem c9_conditional_idempotence (t : List Char) (l : MLead)
    (h : (placeholders.all fun p => !(containsSub p (formatMessage t l))) = true) :
    formatMessage (formatMessage t l) l = formatMessage t l := by
  set o := formatMessage t l with ho
  have hget : ∀ p, p ∈ placeholders → containsSub p o = false := by
    intro p hp
    have := List.all_eq_true.mp h p hp
    simpa using this
  have h1 := hget "[NAME]".toList (by simp [placeholders])
  have h2 := hget "[NOTES]".toList (by simp [placeholders])
  have h3 := hget "[COMPANY]".toList (by simp [placeholders])
  have h4 := hget "{name}".toList (by simp [placeholders])
  have h5 := hget "{notes}".toList (by simp [placeholders])
  have h6 := hget "{company}".toList (by simp [placeholders])
  show formatMessage o l = o
  simp only [formatMessage]
  rw [replaceAll_no_occur _ _ _ h1, replaceAll_no_occur _ _ _ h2,
    replaceAll_no_occur _ _ _ h3, replaceAll_no_occur _ _ _ h4,
    replaceAll_no_occur _ _ _ h5, replaceAll_no_occur _ _ _ h6]

theorem c9_conditional_idempotence_witness :
    (placeholders.all fun p =>
      !(containsSub p
        (formatMessage "Oi [NAME]!".toList ⟨some "Bob".toList, none, none⟩))) = true ∧
    formatMessage
        (formatMessage "Oi [NAME]!".toList ⟨some "Bob".toList, none, none⟩)
        ⟨some "Bob".toList, none, none⟩ =
      formatMessage "Oi [NAME]!".toList ⟨some "Bob".toList, none, none⟩ :=
  ⟨by decide, c9_conditional_idempotence _ _ (by decide)⟩

/-- Claim C10, counterexample: the two `formatMessage` implementations are
not equivalent.  On the template `'[NAME] [NAME]'` with name `'Bob'`, the
`ManualProspecting` renderer (global replacement) yields `'Bob Bob'` while
the `ReactivationCampaign` renderer (single `String.replace` per
placeholder) yields `'Bob [NAME]'`. -/
theorem c10_counterexample :
    formatMessage "[NAME] [NAME]".toList ⟨some "Bob".toList, some "x".toList, none⟩ ≠
      reactFormatMessage "[NAME] [NAME]".toList ⟨"Bob".toList, "x".toList, none⟩ := by
  decide

/-- Claim C10, amended: the two renderers agree only on restricted inputs:
when `name` and `notes` are nonempty (so the `ManualProspecting` fallbacks
are not taken) and each of the six substitution steps meets its
placeholder at most once in the string it scans (so global and
first-occurrence replacement coincide).  In general they differ, as the
counterexample shows. -/
theorem c10_restricted_equivalence (t name notes : List Char)
    (company : Option (List Char))
    (hname : name ≠ []) (hnotes : notes ≠ [])
    (h1 : countOccur "[NAME]".toList t ≤ 1)
    (h2 : countOccur "[NOTES]".toList
      (replaceFirst "[NAME]".toList name t) ≤ 1)
    (h3 : countOccur "[COMPANY]".toList
      (replaceFirst "[NOTES]".toList notes
        (replaceFirst "[NAME]".toList name t)) ≤ 1)
    (h4 : countOccur "{name}".toList
      (replaceFirst "[COMPANY]".toList (falsyOr company [])
        (replaceFirst "[NOTES]".toList notes
          (replaceFirst "[NAME]".toList name t))) ≤ 1)
    (h5 : countOccur "{notes}".toList
      (replaceFirst "{name}".toList name
        (replaceFirst "[COMPANY]".toList (falsyOr company [])
          (replaceFirst "[NOTES]".toList notes
            (replaceFirst "[NAME]".toList name t)))) ≤ 1)
    (h6 : countOccur "{company}".toList
      (replaceFirst "{notes}".toList notes
        (replaceFirst "{name}".toList name
          (replaceFirst "[COMPANY]".toList (falsyOr company [])
            (replaceFirst "[NOTES]".toList notes
              (replaceFirst "[NAME]".toList name t))))) ≤ 1) :
    formatMessage t ⟨some name, some notes, company⟩ =
      reactFormatMessage t ⟨name, notes, company⟩ := by
  have hfn : falsyOr (some name) "Amigo".toList = name := by
    simp [falsyOr, hname]
  have hft : falsyOr (some notes) "crescer o negocio".toList = notes := by
    simp [falsyOr, hnotes]
  simp only [formatMessage, reactFormatMessage, hfn, hft]
  rw [replaceAll_le_one_eq_replaceFirst _ _ _ h1,
    replaceAll_le_one_eq_replaceFirst _ _ _ h2,
    replaceAll_le_one_eq_replaceFirst _ _ _ h3,
    replaceAll_le_one_eq_replaceFirst _ _ _ h4,
    replaceAll_le_one_eq_replaceFirst _ _ _ h5,
    replaceAll_le_one_eq_replaceFirst _ _ _ h6]

theorem c10_restricted_equivalence_witness :
    ("Ana".toList ≠ ([] : List Char)) ∧
    ("crescer".toList ≠ ([] : List Char)) ∧
    countOccur "[NAME]".toList "Oi [NAME], vi que a {company} quer [NOTES].".toList ≤ 1 ∧
    formatMessage "Oi [NAME], vi que a {company} quer [NOTES].".toList
        ⟨some "Ana".toList, some "crescer".toList, some "ACME".toList⟩ =
      reactFormatMessage "Oi [NAME], vi que a {company} quer [NOTES].".toList
        ⟨"Ana".toList, "crescer".toList, some "ACME".toList⟩ :=
  ⟨by decide, by decide, by decide,
    c10_restricted_equivalence _ _ _ _ (by decide) (by decide) (by decide) (by decide)
      (by decide) (by decide) (by decide) (by decide)⟩
